import Mathlib

/-!
Verification of the workflow-execution SDK, the multi-run controller and the
Gmail polling reconciler of the `sim` repository, as a shallow embedding.

Part 1: a model of JavaScript JSON values and of the HTTP responses the SDK
consumes, together with the `Executor.execute` response handling from
`packages/sdk` (the simplified executor in the SDK source).
-/

/-- A JSON value as produced by `response.json()`.  JavaScript `undefined`
(absence of a field) is modelled by `Option Json` at use sites. -/
inductive Json where
  | null
  | bool (b : Bool)
  | num (n : Int)
  | str (s : String)
  | arr (elems : List Json)
  | obj (fields : List (String × Json))
deriving Repr

/-- Property access `v.f` on a JavaScript value: defined only for objects with
the field present; everything else yields `undefined` (`none`). -/
def Json.getField : Json → String → Option Json
  | .obj fields, f => (fields.find? (fun p => p.1 == f)).map (·.2)
  | _, _ => none

/-- JavaScript truthiness of a JSON value. -/
def Json.truthy : Json → Bool
  | .null => false
  | .bool b => b
  | .num n => n != 0
  | .str s => s != ""
  | .arr _ => true
  | .obj _ => true

/-- JavaScript string conversion as used in template literals. -/
def Json.jsToString : Json → String
  | .null => "null"
  | .bool b => if b then "true" else "false"
  | .num n => toString n
  | .str s => s
  | .arr _ => ""
  | .obj _ => "[object Object]"

/-- The JavaScript expression `v || d` where `v` may be `undefined`. -/
def jsOr (v : Option Json) (d : Json) : Json :=
  match v with
  | some j => if j.truthy then j else d
  | none => d

/-- Optional chaining `v?.f` where `v` may be `undefined`. -/
def optChain (v : Option Json) (f : String) : Option Json :=
  match v with
  | some .null => none
  | some j => j.getField f
  | none => none

/-- An HTTP response as seen through `fetch`: status, status text and the
result of `response.json()` (`none` when the body is not valid JSON). -/
structure HttpResponse where
  status : Nat
  statusText : String
  body : Option Json
deriving Repr

/-- The `Response.ok` flag of `fetch`: status in the 2xx range. -/
def HttpResponse.ok (r : HttpResponse) : Bool :=
  200 ≤ r.status && r.status < 300

/-- Outcome of a `fetch` call: a response, a network error, or an abort
raised by the SDK's timeout controller. -/
inductive FetchOutcome where
  | success (r : HttpResponse)
  | networkError (msg : String)
  | aborted
deriving Repr

/-- The errors the SDK throws.  `apiError` is the object built inline in
`execute`/`checkResponse` (an `Error` with message
`API error: status statusText` and `status`/`apiResponse` properties);
`enhanced` is the error built by `handleApiError` when the caught error
carries a truthy `apiResponse` (it has `status` and `data` properties);
`generic` and `timeout` carry only a message. -/
inductive SdkError where
  | apiError (status : Nat) (statusText : String) (apiResponse : Json)
  | enhanced (message : String) (status : Nat) (data : Json)
  | generic (message : String)
  | timeout (message : String)
deriving Repr

/-- The message string of an SDK error (the JavaScript `error.message`). -/
def SdkError.message : SdkError → String
  | .apiError st stText _ => "API error: " ++ toString st ++ " " ++ stText
  | .enhanced msg _ _ => msg
  | .generic msg => msg
  | .timeout msg => msg

/-- The structured status/body payload attached to a thrown SDK error, when
any: `apiError` carries `(status, apiResponse)`, `enhanced` carries
`(status, data)`, the other error shapes carry none. -/
def SdkError.payload : SdkError → Option (Nat × Json)
  | .apiError st _ b => some (st, b)
  | .enhanced _ st b => some (st, b)
  | _ => none

/-- `Executor.handleApiError(error, defaultMessage)` from the SDK executor:
an error carrying a truthy `apiResponse` becomes an enhanced error with
`status` and `data` properties and a message built from
`apiResponse.error || apiResponse.message || defaultMessage`; anything else
becomes a generic error chaining the messages.  (The `AbortError` branch of
the source applies only to the raw abort raised by `fetch`, which the
embedding handles before an `SdkError` is ever built.) -/
def handleApiError (e : SdkError) (defaultMessage : String) : SdkError :=
  match e with
  | .apiError st stText apiResponse =>
      if apiResponse.truthy then
        let message := jsOr (apiResponse.getField "error")
          (jsOr (apiResponse.getField "message") (.str defaultMessage))
        .enhanced (message.jsToString ++ " (Status: " ++ toString st ++ ")") st apiResponse
      else
        .generic (defaultMessage ++ ": " ++ "API error: " ++ toString st ++ " " ++ stText)
  | .enhanced msg st data =>
      if data.truthy then
        let message := jsOr (data.getField "error")
          (jsOr (data.getField "message") (.str defaultMessage))
        .enhanced (message.jsToString ++ " (Status: " ++ toString st ++ ")") st data
      else
        .generic (defaultMessage ++ ": " ++ msg)
  | .generic msg => .generic (defaultMessage ++ ": " ++ msg)
  | .timeout msg => .generic (defaultMessage ++ ": " ++ msg)

/-- The normalized execution result assembled by `Executor.execute`.  Fields
that the source reads off the parsed body without a fallback are `Option
Json` (`none` models JavaScript `undefined`). -/
structure ExecutionResult where
  success : Option Json
  output : Json
  error : Option Json
  logs : Json
  metaStartTime : Option Json
  metaEndTime : Option Json
  metaDuration : Option Json
deriving Repr

/-- The message of the JSON parse error raised by `response.json()` on a
malformed body (stand-in for the engine-specific text). -/
def jsonParseErrorMsg : String := "Unexpected end of JSON input"

/-- The message of the TypeError raised by reading a property of `null`. -/
def nullReadErrorMsg : String := "Cannot read properties of null"

/-- The execution result `Executor.execute` assembles from a 2xx body `j`:
`success` and `error` are read raw, `output` defaults to an object with an
empty `response`, `logs` defaults to `[]`, and the metadata fields go
through optional chaining. -/
def resultOfBody (j : Json) : ExecutionResult :=
  { success := j.getField "success"
    output := jsOr (j.getField "output") (.obj [("response", .obj [])])
    error := j.getField "error"
    logs := jsOr (j.getField "logs") (.arr [])
    metaStartTime := optChain (j.getField "metadata") "startTime"
    metaEndTime := optChain (j.getField "metadata") "endTime"
    metaDuration := optChain (j.getField "metadata") "duration" }

/-- The failed execution result `Executor.execute` returns for a non-2xx
response whose body embeds execution data (`output` present):
`success: false`, `output`/`error`/`logs` with the source's fallbacks, and
optional-chained metadata. -/
def failedResultOfBody (errorData : Json) : ExecutionResult :=
  { success := some (.bool false)
    output := jsOr (errorData.getField "output") (.obj [("response", .obj [])])
    error := some (jsOr (errorData.getField "error") (.str "Execution failed"))
    logs := jsOr (errorData.getField "logs") (.arr [])
    metaStartTime := optChain (errorData.getField "metadata") "startTime"
    metaEndTime := optChain (errorData.getField "metadata") "endTime"
    metaDuration := optChain (errorData.getField "metadata") "duration" }

/-- `Executor.execute`'s handling of the outcome of the fetch to
`POST /api/workflow/[id]/execute`, translated from the SDK executor:
a 2xx body is normalized into an `ExecutionResult` (a `null` body makes the
property reads throw, and a malformed body makes `json()` throw — both end
as generic errors); a non-2xx body embedding `output` becomes a failed
`ExecutionResult`; any other non-2xx case throws the inline API error,
rethrown as-is by the outer catch when both `status` and `apiResponse` are
truthy and otherwise reshaped by `handleApiError`; a network error or an
abort yields the `handleApiError` shapes. -/
def handleExecuteResponse (o : FetchOutcome) : Except SdkError ExecutionResult :=
  match o with
  | .networkError msg => .error (.generic ("Failed to execute workflow: " ++ msg))
  | .aborted => .error (.timeout "Request timeout: Failed to execute workflow")
  | .success r =>
    if r.ok then
      match r.body with
      | none => .error (.generic ("Failed to execute workflow: " ++ jsonParseErrorMsg))
      | some .null => .error (.generic ("Failed to execute workflow: " ++ nullReadErrorMsg))
      | some j => .ok (resultOfBody j)
    else
      match r.body with
      | none =>
          let e := SdkError.apiError r.status r.statusText (.obj [])
          if r.status != 0 && (Json.obj []).truthy then .error e
          else .error (handleApiError e "Failed to execute workflow")
      | some errorData =>
          if errorData.truthy && (errorData.getField "output").isSome then
            .ok (failedResultOfBody errorData)
          else
            let e := SdkError.apiError r.status r.statusText errorData
            if r.status != 0 && errorData.truthy then .error e
            else .error (handleApiError e "Failed to execute workflow")

/-- A workflow definition as the SDK consumes it. -/
structure Workflow where
  id : Option String
  name : String
  description : Option String
  blocks : Json
  connections : Json
  loops : Option Json
  metadata : Option Json

/-- Truthiness of an optional JavaScript string (absent and empty are
falsy). -/
def strTruthy : Option String → Bool
  | some s => s != ""
  | none => false

/-- The JavaScript expression `s || d` on an optional string. -/
def jsOrStr (s : Option String) (d : String) : String :=
  match s with
  | some v => if v != "" then v else d
  | none => d

/-- The API endpoints the SDK persistence/execution paths hit. -/
inductive Endpoint where
  | workflows
  | workflowById (id : String)
  | workflowExecute (id : String)
  | dbWorkflow
deriving Repr, DecidableEq

/-- The URL of an endpoint under a base URL, as built in the SDK. -/
def Endpoint.toUrl (baseUrl : String) : Endpoint → String
  | .workflows => baseUrl ++ "/api/workflows"
  | .workflowById i => baseUrl ++ "/api/workflow/" ++ i
  | .workflowExecute i => baseUrl ++ "/api/workflow/" ++ i ++ "/execute"
  | .dbWorkflow => baseUrl ++ "/api/db/workflow"

/-- An HTTP verb. -/
inductive HttpMethod where
  | get
  | post
  | put
deriving Repr, DecidableEq

/-- An outgoing SDK request. -/
structure HttpRequest where
  method : HttpMethod
  endpoint : Endpoint
  body : Option Json
deriving Repr

/-- The body of the branching `saveWorkflow`:
`name`, `description`, the state with blocks/edges/loops (`loops`
defaulting to an empty object), and `metadata`; `JSON.stringify` drops the
`undefined` optional fields. -/
def saveWorkflowPayload (w : Workflow) : Json :=
  .obj ([("name", .str w.name)]
    ++ (match w.description with
        | some d => [("description", Json.str d)]
        | none => [])
    ++ [("state", .obj
          [("blocks", w.blocks), ("edges", w.connections),
           ("loops", jsOr w.loops (.obj []))])]
    ++ (match w.metadata with
        | some m => [("metadata", m)]
        | none => []))

/-- The request issued by the branching `SimStudio.saveWorkflow`: PUT to the
workflow's own endpoint when the workflow has a (truthy) id, POST to the
collection endpoint otherwise. -/
def SimStudio.saveWorkflowRequest (w : Workflow) : HttpRequest :=
  if strTruthy w.id then
    { method := .put, endpoint := .workflowById (w.id.getD ""), body := some (saveWorkflowPayload w) }
  else
    { method := .post, endpoint := .workflows, body := some (saveWorkflowPayload w) }

/-- The per-workflow entry of the db save payload, keyed state as in the
source: id, name, description (defaulted), color (from metadata, with the
default), and the state with blocks/edges/loops and `lastSaved`. -/
def dbWorkflowEntry (innerId : String) (now : Int) (w : Workflow) : Json :=
  .obj [("id", .str innerId),
        ("name", .str w.name),
        ("description", .str (jsOrStr w.description "")),
        ("color", jsOr (optChain w.metadata "color") (.str "#3972F6")),
        ("state", .obj
          [("blocks", w.blocks), ("edges", w.connections),
           ("loops", jsOr w.loops (.obj [])),
           ("lastSaved", .num now)])]

/-- Environment for the db `saveWorkflow` variant: the successive results of
`crypto.randomUUID()` (the source evaluates it twice, once for the payload
key and once for the inner id) and `Date.now()`. -/
structure DbSaveEnv where
  uuid : Nat → String
  now : Int

/-- The payload of the db `saveWorkflow` variant: a `workflows` object with
one entry keyed by the workflow's id (or a fresh UUID), whose inner id is
the workflow's id or a second fresh UUID — two separate
`crypto.randomUUID()` calls. -/
def saveWorkflowDbPayload (env : DbSaveEnv) (w : Workflow) : Json :=
  .obj [("workflows", .obj
    [(jsOrStr w.id (env.uuid 0), dbWorkflowEntry (jsOrStr w.id (env.uuid 1)) env.now w)])]

/-- The request issued by the db `SimStudio.saveWorkflow` variant: always a
POST to `/api/db/workflow`, whether or not the workflow has an id. -/
def saveWorkflowDbRequest (env : DbSaveEnv) (w : Workflow) : HttpRequest :=
  { method := .post, endpoint := .dbWorkflow, body := some (saveWorkflowDbPayload env w) }

/-- The key of the single entry under `workflows` in a db save payload
(`none` if the body is not of that shape). -/
def dbPayloadKey (req : HttpRequest) : Option String :=
  match req.body with
  | some (.obj [("workflows", .obj [(k, _)])]) => some k
  | _ => none

/-- Environment for `Executor.executeWorkflow`: one fresh
`crypto.randomUUID()`, `Date.now()`, and the remote's reaction to each
request. -/
structure ExecEnv where
  uuid : String
  now : Int
  respond : HttpRequest → FetchOutcome

/-- The save request built inside `Executor.executeWorkflow`: POST
`/api/db/workflow` with the payload keyed by the workflow's id or, when it
has none, the one freshly assigned id (the same id in the key and the
entry). -/
def executeWorkflowSaveRequest (env : ExecEnv) (w : Workflow) : HttpRequest :=
  let wid := jsOrStr w.id env.uuid
  { method := .post, endpoint := .dbWorkflow,
    body := some (.obj [("workflows", .obj [(wid, dbWorkflowEntry wid env.now w)])]) }

/-- The execute request `Executor.execute` issues for a workflow id. -/
def executeRequest (wid : String) (input : Json) : HttpRequest :=
  { method := .post, endpoint := .workflowExecute wid, body := some input }

/-- `Executor.execute(workflowId, input)`: one POST to the execute endpoint,
its outcome mapped by the response handling above.  Returns the result and
the requests issued. -/
def Executor.execute (env : ExecEnv) (wid : String) (input : Json) :
    Except SdkError ExecutionResult × List HttpRequest :=
  let req := executeRequest wid input
  (handleExecuteResponse (env.respond req), [req])

/-- `Executor.executeWorkflow(workflow, input)`: assign an id if the
workflow has none, save through `/api/db/workflow`, check the save
response, then delegate to `execute` with that id.  A failed save is
wrapped by `handleApiError`; a rejection from the delegated `execute` is
returned unwrapped (the source returns the promise without awaiting it, so
its own catch cannot intercept it). -/
def Executor.executeWorkflow (env : ExecEnv) (w : Workflow) (input : Json) :
    Except SdkError ExecutionResult × List HttpRequest :=
  let wid := jsOrStr w.id env.uuid
  let saveReq := executeWorkflowSaveRequest env w
  match env.respond saveReq with
  | .success r =>
      if r.ok then
        let res := Executor.execute env wid input
        (res.1, saveReq :: res.2)
      else
        let errorData := match r.body with
          | some b => b
          | none => .obj []
        (.error (handleApiError (.apiError r.status r.statusText errorData) "Failed to execute workflow"),
         [saveReq])
  | .networkError msg =>
      (.error (.generic ("Failed to execute workflow: " ++ msg)), [saveReq])
  | .aborted =>
      (.error (.timeout "Request timeout: Failed to execute workflow"), [saveReq])

/-- Whether `response.json()` yields a value whose properties can be read
(parses, and is not `null`). -/
def parsesNonNull : Option Json → Bool
  | some .null => false
  | some _ => true
  | none => false

/-- Whether a response body embeds execution data: it parses to a truthy
value with an `output` field (only objects have fields). -/
def embedsOutput : Option Json → Bool
  | some b => b.truthy && (b.getField "output").isSome
  | none => true && false

/-- Whether a response body is missing or parses to a truthy value (the
cases in which the inline API error survives to the caller with its
status/body payload). -/
def bodyTruthyOrMissing : Option Json → Bool
  | some b => b.truthy
  | none => true

/-- Whether an execution outcome is a normal return (not a throw). -/
def execOutcomeOk : Except SdkError ExecutionResult → Bool
  | .ok _ => true
  | .error _ => false

/-- The status/body payload of the error thrown by an execution outcome,
when it throws one carrying a payload. -/
def thrownPayload : Except SdkError ExecutionResult → Option (Nat × Json)
  | .error e => e.payload
  | .ok _ => none

/-- Concrete environment for the C1 witness: workflow `wf-1`, a server that
accepts every request. -/
def c1Env : ExecEnv :=
  { uuid := "3f2f9d36-0000-4000-8000-000000000000", now := 1700000000000,
    respond := fun _ => .success { status := 200, statusText := "OK", body := some (.obj []) } }

/-- The workflow used by the C1 and C6 witnesses (it has an id). -/
def wfWithId : Workflow :=
  { id := some "wf-1", name := "Test Workflow", description := some "A test workflow",
    blocks := .arr [], connections := .arr [], loops := none, metadata := none }

/-- A 500 response whose body is the JSON literal `null`. -/
def resp500null : HttpResponse :=
  { status := 500, statusText := "Internal Server Error", body := some .null }

/-- A 500 response embedding partial execution data. -/
def resp500embedded : HttpResponse :=
  { status := 500, statusText := "Internal Server Error",
    body := some (.obj
      [("success", .bool false),
       ("output", .obj [("response", .obj [("error", .str "Runtime error in function block")])]),
       ("error", .str "Function execution failed"),
       ("logs", .arr [.obj [("blockId", .str "function-1")]])]) }

/-- Fixed fresh ids and clock for the C6 counterexample and witness. -/
def dbEnvC6 : DbSaveEnv :=
  { uuid := fun n => if n = 0 then "aaaaaaaa-0000-4000-8000-000000000000"
      else "bbbbbbbb-0000-4000-8000-000000000000",
    now := 1700000000000 }

/-- The slice of the `/api/user/usage` snapshot the controller reads. -/
structure UsageSnapshot where
  isExceeded : Bool
deriving Repr, DecidableEq

/-- The module-level usage cache `usageDataCache`. -/
structure UsageCache where
  data : Option UsageSnapshot
  timestamp : Nat
  expirationMs : Nat
deriving Repr, DecidableEq

/-- The initial value of the module-level cache: no data, and a one-minute
expiration. -/
def usageDataCacheInit : UsageCache :=
  { data := none, timestamp := 0, expirationMs := 60 * 1000 }

/-- Outcome of the `/api/user/usage` fetch: parsed usage, or any failure
(non-ok response or thrown error — both end in the catch returning null). -/
inductive UsageFetch where
  | success (u : UsageSnapshot)
  | failure
deriving Repr, DecidableEq

/-- What one `checkUserUsage` call produces: the returned value, the cache
afterwards, and whether a network call was made. -/
structure UsageCheckResult where
  result : Option UsageSnapshot
  cache : UsageCache
  network : Bool
deriving Repr, DecidableEq

/-- `checkUserUsage(userId, forceRefresh)`: reuse the cached snapshot when
not forced, data is present and the cache age is below the expiration;
otherwise fetch, updating the cache on success and returning null on
failure. -/
def checkUserUsage (cache : UsageCache) (now : Nat) (forceRefresh : Bool)
    (fetch : UsageFetch) : UsageCheckResult :=
  let cacheAge := now - cache.timestamp
  if !forceRefresh && cache.data.isSome && decide (cacheAge < cache.expirationMs) then
    { result := cache.data, cache := cache, network := false }
  else
    match fetch with
    | .success u =>
        { result := some u,
          cache := { data := some u, timestamp := now, expirationMs := cache.expirationMs },
          network := true }
    | .failure => { result := none, cache := cache, network := true }

/-- Notification kinds used by the controller. -/
inductive NotifKind where
  | info
  | errorKind
  | console
deriving Repr, DecidableEq

/-- Observable events of one multi-run batch, in program order. -/
inductive RunEvent where
  | cancelCheck (i : Nat) (flag : Bool)
  | run (i : Nat)
  | runFailed (i : Nat)
  | setCompleted (n : Nat)
  | usageCheck (i : Nat) (forced : Bool) (result : Option UsageSnapshot)
  | notify (k : NotifKind) (msg : String)
  | statsCall (runs : Nat)
deriving Repr, DecidableEq

/-- How the loop of `handleMultipleRuns` ended. -/
inductive BatchExit where
  | finished
  | cancelled
  | quotaBreak
  | errored
deriving Repr, DecidableEq

/-- The environment of one batch: the run count, the closure-captured
`completedRuns` state (the success notification reads this stale value),
the pre-batch `usageExceeded` state, session and active-workflow presence,
and the oracles for the cancellation flag at each loop entry, for each
run's success, and for each usage check's result. -/
structure MultiRunEnv where
  runCount : Nat
  capturedCompletedRuns : Nat
  usageExceededState : Bool
  hasSession : Bool
  hasActiveWorkflow : Bool
  cancelFlagAt : Nat → Bool
  runFails : Nat → Bool
  usageAt : Nat → Option UsageSnapshot

/-- The usage-check cadence of the loop body:
`i === 0 || (i + 1) % 5 === 0 || i === runCount - 1`. -/
def shouldCheckUsage (runCount i : Nat) : Bool :=
  i == 0 || (i + 1) % 5 == 0 || i == runCount - 1

/-- The quota-stop notification text, with the runs counted so far. -/
def quotaMsg (n : Nat) : String :=
  "Usage limit reached after " ++ toString n ++ " runs. Execution stopped."

/-- Result of the loop of `handleMultipleRuns`: the final `runCounter`, how
the loop ended, and the events it produced. -/
structure LoopResult where
  counter : Nat
  exit : BatchExit
  events : List RunEvent
deriving Repr, DecidableEq

/-- The loop of `handleMultipleRuns`, one fuel unit per remaining
iteration: check the cancellation flag; run the workflow (a throw exits to
the catch); bump `runCounter` and publish it; on cadence iterations check
usage and, if exceeded before the last run, notify and stop. -/
def runLoop (env : MultiRunEnv) : Nat → Nat → Nat → LoopResult
  | 0, _, counter => { counter := counter, exit := .finished, events := [] }
  | fuel + 1, i, counter =>
    if env.cancelFlagAt i then
      { counter := counter, exit := .cancelled, events := [.cancelCheck i true] }
    else if env.runFails i then
      { counter := counter, exit := .errored, events := [.cancelCheck i false, .runFailed i] }
    else
      let counter1 := i + 1
      let preEvts : List RunEvent := [.cancelCheck i false, .run i, .setCompleted counter1]
      if shouldCheckUsage env.runCount i && env.hasSession then
        let u := env.usageAt i
        let checkEvt := RunEvent.usageCheck i (i == 0) u
        match u with
        | some usage =>
          if usage.isExceeded then
            if i < env.runCount - 1 then
              { counter := counter1, exit := .quotaBreak,
                events := preEvts ++ [checkEvt, .notify .info (quotaMsg counter1)] }
            else
              let rest := runLoop env fuel (i + 1) counter1
              { counter := rest.counter, exit := rest.exit,
                events := preEvts ++ [checkEvt] ++ rest.events }
          else
            let rest := runLoop env fuel (i + 1) counter1
            { counter := rest.counter, exit := rest.exit,
              events := preEvts ++ [checkEvt] ++ rest.events }
        | none =>
          let rest := runLoop env fuel (i + 1) counter1
          { counter := rest.counter, exit := rest.exit,
            events := preEvts ++ [checkEvt] ++ rest.events }
      else
        let rest := runLoop env fuel (i + 1) counter1
        { counter := rest.counter, exit := rest.exit,
          events := preEvts ++ rest.events }

/-- Result of a whole batch: final `completedRuns` state, loop exit, and
all events including the stats call and the final notifications. -/
structure BatchResult where
  completedRuns : Nat
  exit : BatchExit
  events : List RunEvent
deriving Repr, DecidableEq

/-- The closure-captured success notification: it interpolates the stale
`completedRuns` state captured when the handler was created, not the batch's
final count. -/
def completedNotifyEvent (env : MultiRunEnv) : RunEvent :=
  .notify .console ("Completed " ++ toString env.capturedCompletedRuns ++ " workflow runs")

/-- `handleMultipleRuns`: refuse to start when the run count is not positive
or the `usageExceeded` state is already set; otherwise run the loop, file
the non-blocking stats call unless the batch was cancelled or threw, and
emit the final notification from the `finally` block (cancelled / error /
completed-for-multi-run). -/
def handleMultipleRuns (env : MultiRunEnv) : Option BatchResult :=
  if env.runCount == 0 || env.usageExceededState then none
  else
    let lr := runLoop env env.runCount 0 0
    let statsEvts : List RunEvent :=
      if lr.exit ≠ .cancelled ∧ lr.exit ≠ .errored ∧ env.hasActiveWorkflow then
        [.statsCall lr.counter]
      else []
    let finalNotifs : List RunEvent :=
      if lr.exit = .cancelled then [.notify .info "Workflow run cancelled"]
      else if lr.exit = .errored then [.notify .errorKind "Failed to complete all workflow runs"]
      else if 1 < env.runCount then [completedNotifyEvent env]
      else []
    some { completedRuns := lr.counter, exit := lr.exit,
           events := lr.events ++ statsEvts ++ finalNotifs }

/-- Whether an event is a completed workflow run. -/
def isRunEvent : RunEvent → Bool
  | .run _ => true
  | _ => false

/-- Whether an event is a notification. -/
def isNotifyEvent : RunEvent → Bool
  | .notify _ _ => true
  | _ => false

/-- Whether an event is a usage check. -/
def isUsageCheckEvent : RunEvent → Bool
  | .usageCheck .. => true
  | _ => false

/-- The notifications a batch emitted, in order. -/
def notificationsOf (b : BatchResult) : List RunEvent :=
  b.events.filter isNotifyEvent

/-- The events of one undisturbed loop body `i`: the cancellation check,
the run, the counter publication, and (on cadence iterations with a
session) the usage check — performed after the run, forced on the first
body. -/
def bodyEvents (env : MultiRunEnv) (i : Nat) : List RunEvent :=
  [.cancelCheck i false, .run i, .setCompleted (i + 1)]
  ++ (if shouldCheckUsage env.runCount i && env.hasSession then
        [.usageCheck i (i == 0) (env.usageAt i)]
      else [])

/-- The body index of a usage-check event. -/
def usageCheckIdx : RunEvent → Option Nat
  | .usageCheck i _ _ => some i
  | _ => none

/-- A 2-run batch in which cancellation is requested right after iteration
1 completes (the flag reads false at entry 0 and true from entry 1 on)
while the usage check at iteration 1 observes the quota exceeded. -/
def c3cEnv : MultiRunEnv :=
  { runCount := 2, capturedCompletedRuns := 0, usageExceededState := false,
    hasSession := true, hasActiveWorkflow := true,
    cancelFlagAt := fun i => i != 0,
    runFails := fun _ => false,
    usageAt := fun _ => some { isExceeded := true } }

/-- A 10-run batch, cancellation requested after iteration 3, quota fine. -/
def c3wEnv : MultiRunEnv :=
  { runCount := 10, capturedCompletedRuns := 0, usageExceededState := false,
    hasSession := true, hasActiveWorkflow := true,
    cancelFlagAt := fun i => decide (3 ≤ i),
    runFails := fun _ => false,
    usageAt := fun _ => some { isExceeded := false } }

/-- A 2-run batch with no cancellation whose first usage check observes the
quota exceeded. -/
def c4cEnv : MultiRunEnv :=
  { runCount := 2, capturedCompletedRuns := 0, usageExceededState := false,
    hasSession := true, hasActiveWorkflow := true,
    cancelFlagAt := fun _ => false,
    runFails := fun _ => false,
    usageAt := fun _ => some { isExceeded := true } }

/-- A clean 2-run batch for the C4 witness. -/
def c4wEnv : MultiRunEnv :=
  { runCount := 2, capturedCompletedRuns := 0, usageExceededState := false,
    hasSession := true, hasActiveWorkflow := true,
    cancelFlagAt := fun _ => false,
    runFails := fun _ => false,
    usageAt := fun _ => some { isExceeded := false } }

/-- A clean 3-run batch with a session (for the C5 counterexample). -/
def c5cEnv : MultiRunEnv :=
  { runCount := 3, capturedCompletedRuns := 0, usageExceededState := false,
    hasSession := true, hasActiveWorkflow := true,
    cancelFlagAt := fun _ => false,
    runFails := fun _ => false,
    usageAt := fun _ => some { isExceeded := false } }

/-- A clean 7-run batch with a session (for the C5 witness). -/
def c5wEnv : MultiRunEnv :=
  { runCount := 7, capturedCompletedRuns := 0, usageExceededState := false,
    hasSession := true, hasActiveWorkflow := true,
    cancelFlagAt := fun _ => false,
    runFails := fun _ => false,
    usageAt := fun _ => some { isExceeded := false } }

/-- A cache holding a 30-second-old snapshot, for the C5 witness. -/
def c5Cache : UsageCache :=
  { data := some { isExceeded := false }, timestamp := 0, expirationMs := 60 * 1000 }

/-- The slice of a Gmail message the reconciler reads: id, recency, labels,
and the per-message history id. -/
structure Email where
  id : String
  internalDate : Nat
  labelIds : List String
  historyId : Option String
deriving Repr, DecidableEq

/-- The webhook's `providerConfig` for Gmail polling. -/
structure GmailConfig where
  labelIds : List String
  labelFilterInclude : Bool
  processIncomingEmails : Bool
  markAsRead : Bool
  maxEmailsPerPoll : Option Nat
  singleEmailMode : Bool
  historyId : Option String
  processedEmailIds : Option (List String)
  lastCheckedTimestamp : Option String
deriving Repr, DecidableEq

/-- One entry of the Gmail history response: the ids of added messages. -/
structure HistoryEntry where
  messagesAdded : List String
deriving Repr, DecidableEq

/-- The Gmail history response body. -/
structure HistoryData where
  history : List HistoryEntry
  historyId : Option String
deriving Repr, DecidableEq

/-- Outcome of the history request: a parsed body, a non-ok response, or a
thrown error. -/
inductive HistoryOutcome where
  | ok (d : HistoryData)
  | httpError
  | throws
deriving Repr, DecidableEq

/-- Outcome of the search request: message ids, a non-ok response, or a
thrown error. -/
inductive SearchOutcome where
  | ok (messageIds : List String)
  | httpError
  | throws
deriving Repr, DecidableEq

/-- Outcome of one webhook trigger delivery: 2xx, non-2xx, or a throw. -/
inductive DeliveryOutcome where
  | okResp
  | errResp
  | throws
deriving Repr, DecidableEq

/-- Environment of one poll tick for one subscription: upstream responses,
the per-message detail fetch (`none` models `getEmailDetails` throwing on a
non-ok response), per-item delivery outcomes, credential presence, and the
tick's clock. -/
structure PollEnv where
  historyOutcome : HistoryOutcome
  searchOutcome : SearchOutcome
  detailAt : String → Option Email
  delivery : String → DeliveryOutcome
  hasUserId : Bool
  hasToken : Bool
  now : String

/-- What `fetchNewEmails` returns: the fetched emails and the latest
history id to persist. -/
structure FetchResult where
  emails : List Email
  latestHistoryId : Option String
deriving Repr, DecidableEq

/-- The JavaScript expression `a || b` on optional strings. -/
def jsOrStrOpt (a b : Option String) : Option String :=
  if strTruthy a then a else b

/-- The JavaScript expression `n || d` on an optional number (zero is
falsy). -/
def jsOrNat (o : Option Nat) (d : Nat) : Nat :=
  match o with
  | some n => if n != 0 then n else d
  | none => d

/-- `Promise.all` over `getEmailDetails`: all details, or `none` when any
single detail fetch throws. -/
def fetchDetails (env : PollEnv) : List String → Option (List Email)
  | [] => some []
  | id :: rest =>
    match env.detailAt id, fetchDetails env rest with
    | some e, some es => some (e :: es)
    | _, _ => none

/-- First-occurrence deduplication, as `new Set` iteration order. -/
def dedupFirstAux (seen : List String) : List String → List String
  | [] => []
  | x :: xs =>
    if seen.contains x then dedupFirstAux seen xs
    else x :: dedupFirstAux (x :: seen) xs

/-- The id set collected from the history entries, in insertion order. -/
def dedupFirst (l : List String) : List String := dedupFirstAux [] l

/-- Insert into an ascending list (the model of `Array.sort`). -/
def insertSorted (s : String) : List String → List String
  | [] => [s]
  | t :: ts => if s ≤ t then s :: t :: ts else t :: insertSorted s ts

/-- Lexicographically ascending sort (the model of `Array.sort`). -/
def sortAsc (l : List String) : List String := l.foldr insertSorted []

/-- `filterEmailsByLabels`: with no configured labels keep everything;
otherwise keep (INCLUDE) or drop (EXCLUDE) the emails carrying a matching
label. -/
def filterEmailsByLabels (emails : List Email) (cfg : GmailConfig) : List Email :=
  if cfg.labelIds.isEmpty then emails
  else emails.filter (fun e =>
    let hasMatchingLabel := cfg.labelIds.any (fun l => e.labelIds.contains l)
    if cfg.labelFilterInclude then hasMatchingLabel else !hasMatchingLabel)

/-- The message ids the search path fetches details for: the single most
recent one in single-email mode, otherwise up to `maxEmailsPerPoll`
(default 100). -/
def searchIdsToFetch (cfg : GmailConfig) (ids : List String) : List String :=
  if cfg.singleEmailMode && !ids.isEmpty then ids.take 1
  else ids.take (jsOrNat cfg.maxEmailsPerPoll 100)

/-- The message ids the history path fetches details for: the collected id
set sorted most-recent-first, then the single-email-mode / cap cut. -/
def historyIdsToFetch (cfg : GmailConfig) (d : HistoryData) : List String :=
  let sortedIds := (sortAsc (dedupFirst (d.history.flatMap (fun h => h.messagesAdded)))).reverse
  if cfg.singleEmailMode && !sortedIds.isEmpty then sortedIds.take 1
  else sortedIds.take (jsOrNat cfg.maxEmailsPerPoll 100)

/-- `searchEmails`: on a non-ok response or a thrown error return no emails
and the unchanged history id; otherwise fetch details for the selected ids
(any detail throw is caught the same way) and take the latest history id
from the most recent email when it carries one. -/
def searchEmails (env : PollEnv) (cfg : GmailConfig) : FetchResult :=
  match env.searchOutcome with
  | .throws => { emails := [], latestHistoryId := cfg.historyId }
  | .httpError => { emails := [], latestHistoryId := cfg.historyId }
  | .ok ids =>
    if ids.isEmpty then { emails := [], latestHistoryId := cfg.historyId }
    else
      match fetchDetails env (searchIdsToFetch cfg ids) with
      | none => { emails := [], latestHistoryId := cfg.historyId }
      | some emails =>
        let latest := match emails.head? with
          | some e => if strTruthy e.historyId then e.historyId else cfg.historyId
          | none => cfg.historyId
        { emails := emails, latestHistoryId := latest }

/-- `fetchNewEmails`: use the history API when a (truthy) cursor exists,
falling back to search on a non-ok history response; a thrown error
anywhere is caught and yields no emails with the unchanged cursor.  The
history path collects added-message ids, sorts them most-recent-first,
cuts for single-email mode or the per-poll cap, fetches details and
filters by labels. -/
def fetchNewEmails (env : PollEnv) (cfg : GmailConfig) : FetchResult :=
  if strTruthy cfg.historyId then
    match env.historyOutcome with
    | .throws => { emails := [], latestHistoryId := cfg.historyId }
    | .httpError => searchEmails env cfg
    | .ok d =>
      if d.history.isEmpty then { emails := [], latestHistoryId := cfg.historyId }
      else
        let latest := if strTruthy d.historyId then d.historyId else cfg.historyId
        if (dedupFirst (d.history.flatMap (fun h => h.messagesAdded))).isEmpty then
          { emails := [], latestHistoryId := latest }
        else
          match fetchDetails env (historyIdsToFetch cfg d) with
          | none => { emails := [], latestHistoryId := cfg.historyId }
          | some emails =>
            { emails := filterEmailsByLabels emails cfg, latestHistoryId := latest }
  else
    searchEmails env cfg

/-- `processEmails`: for each email, attempt the webhook trigger delivery;
a non-ok response or a thrown error is logged and the loop continues with
the next item; the processed count grows only on success.  Returns the
count and the attempted ids in order. -/
def processEmails (env : PollEnv) : List Email → Nat × List String
  | [] => (0, [])
  | e :: rest =>
    let pr := processEmails env rest
    match env.delivery e.id with
    | .okResp => (pr.1 + 1, e.id :: pr.2)
    | .errResp => (pr.1, e.id :: pr.2)
    | .throws => (pr.1, e.id :: pr.2)

/-- `updateWebhookLastChecked`: persist the tick timestamp and, when the
passed history id is truthy, the new cursor; processed ids untouched. -/
def updateWebhookLastChecked (cfg : GmailConfig) (timestamp : String)
    (historyId : Option String) : GmailConfig :=
  { cfg with lastCheckedTimestamp := some timestamp,
             historyId := if strTruthy historyId then historyId else cfg.historyId }

/-- `updateWebhookData`: persist the tick timestamp, the cursor when
truthy, and the processed-id list when passed (arrays are truthy even when
empty). -/
def updateWebhookData (cfg : GmailConfig) (timestamp : String)
    (historyId : Option String) (processedEmailIds : Option (List String)) : GmailConfig :=
  { cfg with lastCheckedTimestamp := some timestamp,
             historyId := if strTruthy historyId then historyId else cfg.historyId,
             processedEmailIds := match processedEmailIds with
               | some l => some l
               | none => cfg.processedEmailIds }

/-- The new-item filter of the tick: drop every email whose id is already
in the processed-id set. -/
def newEmailsOf (cfg : GmailConfig) (emails : List Email) : List Email :=
  emails.filter (fun e => !((cfg.processedEmailIds.getD []).contains e.id))

/-- Single-item mode cut at the tick level: with more than one remaining
new email keep only the most recent one. -/
def emailsToProcessOf (cfg : GmailConfig) (newEmails : List Email) : List Email :=
  if cfg.singleEmailMode && decide (1 < newEmails.length) then newEmails.take 1
  else newEmails

/-- `slice(-100)`: the most recent at most 100 entries. -/
def takeLast (n : Nat) (l : List String) : List String := l.drop (l.length - n)

/-- How a tick reports for one subscription. -/
inductive TickStatus where
  | failedNoUser
  | failedNoToken
  | failedNotConfigured
  | noEmails
  | alreadyProcessed
  | processedOk (emailsFound newEmails emailsProcessed : Nat)
deriving Repr, DecidableEq

/-- One subscription's tick outcome: the report, the persisted provider
config (when the tick persisted one), and the ids delivery was attempted
for. -/
structure TickOutcome where
  status : TickStatus
  persisted : Option GmailConfig
  deliveredAttempts : List String
deriving Repr, DecidableEq

/-- One subscription's body of `pollGmailWebhooks`: fail in isolation
without a user id, token or the processing flag; fetch; with no emails
persist the advanced timestamp and report `no_emails`; drop
already-processed ids; apply single-item mode; attempt deliveries; persist
the timestamp, cursor and the processed-id list extended by every
attempted id and trimmed to the most recent 100. -/
def pollGmailWebhookTick (env : PollEnv) (cfg : GmailConfig) : TickOutcome :=
  if !env.hasUserId then
    { status := .failedNoUser, persisted := none, deliveredAttempts := [] }
  else if !env.hasToken then
    { status := .failedNoToken, persisted := none, deliveredAttempts := [] }
  else if !cfg.processIncomingEmails then
    { status := .failedNotConfigured, persisted := none, deliveredAttempts := [] }
  else
    let fr := fetchNewEmails env cfg
    if fr.emails.isEmpty then
      { status := .noEmails,
        persisted := some (updateWebhookLastChecked cfg env.now
          (jsOrStrOpt fr.latestHistoryId cfg.historyId)),
        deliveredAttempts := [] }
    else
      let newEmails := newEmailsOf cfg fr.emails
      if newEmails.isEmpty then
        { status := .alreadyProcessed,
          persisted := some (updateWebhookLastChecked cfg env.now
            (jsOrStrOpt fr.latestHistoryId cfg.historyId)),
          deliveredAttempts := [] }
      else
        let emailsToProcess := emailsToProcessOf cfg newEmails
        let pr := processEmails env emailsToProcess
        let newProcessedIds := (cfg.processedEmailIds.getD []) ++ emailsToProcess.map (fun e => e.id)
        let trimmedProcessedIds := takeLast 100 newProcessedIds
        { status := .processedOk fr.emails.length newEmails.length pr.1,
          persisted := some (updateWebhookData cfg env.now
            (jsOrStrOpt fr.latestHistoryId cfg.historyId) (some trimmedProcessedIds)),
          deliveredAttempts := pr.2 }

/-- Whether this tick reads the upstream through the search query: either
no resumable cursor exists, or the history request answered non-ok. -/
def searchPathUsed (env : PollEnv) (cfg : GmailConfig) : Prop :=
  strTruthy cfg.historyId = false ∨ (strTruthy cfg.historyId = true ∧ env.historyOutcome = .httpError)

/-- Tick environment for the C7 witness: the search returns two messages. -/
def c7Env : PollEnv :=
  { historyOutcome := .throws,
    searchOutcome := .ok ["m2", "m1"],
    detailAt := fun id =>
      if id = "m2" then some { id := "m2", internalDate := 2, labelIds := [], historyId := none }
      else if id = "m1" then some { id := "m1", internalDate := 1, labelIds := [], historyId := none }
      else none,
    delivery := fun _ => .okResp,
    hasUserId := true, hasToken := true, now := "2025-01-01T00:00:00Z" }

/-- Subscription config for the C7 witness: `m1` already processed. -/
def c7Cfg : GmailConfig :=
  { labelIds := [], labelFilterInclude := true, processIncomingEmails := true,
    markAsRead := false, maxEmailsPerPoll := none, singleEmailMode := false,
    historyId := none, processedEmailIds := some ["m1"], lastCheckedTimestamp := none }

/-- Tick environment for the C8 witness: delivery of `m2` answers non-ok,
delivery of `m1` succeeds. -/
def c8Env : PollEnv :=
  { historyOutcome := .throws,
    searchOutcome := .ok ["m2", "m1"],
    detailAt := fun id =>
      if id = "m2" then some { id := "m2", internalDate := 2, labelIds := [], historyId := none }
      else if id = "m1" then some { id := "m1", internalDate := 1, labelIds := [], historyId := none }
      else none,
    delivery := fun id => if id = "m2" then .errResp else .okResp,
    hasUserId := true, hasToken := true, now := "2025-01-01T00:00:00Z" }

/-- Subscription config for the C8 witness: `m0` already processed. -/
def c8Cfg : GmailConfig :=
  { labelIds := [], labelFilterInclude := true, processIncomingEmails := true,
    markAsRead := false, maxEmailsPerPoll := none, singleEmailMode := false,
    historyId := none, processedEmailIds := some ["m0"], lastCheckedTimestamp := none }

/-- Fetched emails for the C9 witness: three messages most-recent-first. -/
def c9Emails : List Email :=
  [{ id := "m3", internalDate := 3, labelIds := [], historyId := none },
   { id := "m2", internalDate := 2, labelIds := [], historyId := none },
   { id := "m1", internalDate := 1, labelIds := [], historyId := none }]

/-- Subscription config for the C9 witness: single-email mode, nothing
processed yet. -/
def c9Cfg : GmailConfig :=
  { labelIds := [], labelFilterInclude := true, processIncomingEmails := true,
    markAsRead := false, maxEmailsPerPoll := none, singleEmailMode := true,
    historyId := none, processedEmailIds := none, lastCheckedTimestamp := none }

/-- Tick environment for the C10 witness: the history request throws. -/
def c10Env : PollEnv :=
  { historyOutcome := .throws,
    searchOutcome := .throws,
    detailAt := fun _ => none,
    delivery := fun _ => .okResp,
    hasUserId := true, hasToken := true, now := "2025-01-01T00:00:00Z" }

/-- Subscription config for the C10 witness: it has a resumable cursor. -/
def c10Cfg : GmailConfig :=
  { labelIds := [], labelFilterInclude := true, processIncomingEmails := true,
    markAsRead := false, maxEmailsPerPoll := none, singleEmailMode := false,
    historyId := some "h1", processedEmailIds := none, lastCheckedTimestamp := none }

/-- C1: `executeWorkflow(W, I)` performs the save call exactly once and the
execute call exactly once, the save call completing (with a 2xx response)
before the execute call begins, and the execute call uses W's id when
present and the freshly assigned id when absent. -/
theorem claim_c1_executeWorkflow_saves_once_then_executes_once
    (env : ExecEnv) (w : Workflow) (input : Json) (r : HttpResponse)
    (hresp : env.respond (executeWorkflowSaveRequest env w) = .success r)
    (hok : r.ok = true) :
    (Executor.executeWorkflow env w input).2
      = [executeWorkflowSaveRequest env w, executeRequest (jsOrStr w.id env.uuid) input]
    ∧ ((Executor.executeWorkflow env w input).2.countP
        (fun q => q.endpoint == Endpoint.dbWorkflow)) = 1
    ∧ ((Executor.executeWorkflow env w input).2.countP
        (fun q => q.endpoint == Endpoint.workflowExecute (jsOrStr w.id env.uuid))) = 1
    ∧ (∀ i, w.id = some i → i ≠ "" → jsOrStr w.id env.uuid = i)
    ∧ (w.id = none → jsOrStr w.id env.uuid = env.uuid) := by
  have htrace : (Executor.executeWorkflow env w input).2
      = [executeWorkflowSaveRequest env w, executeRequest (jsOrStr w.id env.uuid) input] := by
    unfold Executor.executeWorkflow
    dsimp only
    rw [hresp]
    simp [hok, Executor.execute]
  refine ⟨htrace, ?_, ?_, ?_, ?_⟩
  · rw [htrace]
    simp [List.countP_cons, executeWorkflowSaveRequest, executeRequest, beq_iff_eq]
  · rw [htrace]
    simp [List.countP_cons, executeWorkflowSaveRequest, executeRequest, beq_iff_eq]
  · intro i hi hne
    simp [jsOrStr, hi, hne]
  · intro hnone
    simp [jsOrStr, hnone]

/-- Witness for C1 at the concrete workflow `wf-1` and an accepting
server. -/
theorem claim_c1_witness :
    (Executor.executeWorkflow c1Env wfWithId (.obj [])).2
      = [executeWorkflowSaveRequest c1Env wfWithId, executeRequest "wf-1" (.obj [])]
    ∧ jsOrStr wfWithId.id c1Env.uuid = "wf-1" := by
  have h := claim_c1_executeWorkflow_saves_once_then_executes_once c1Env wfWithId (.obj [])
    { status := 200, statusText := "OK", body := some (.obj []) } rfl rfl
  exact ⟨h.1, h.2.2.2.1 "wf-1" rfl (by decide)⟩

/-- C2 (amended): `execute` returns normally exactly when a 2xx response
parses to a readable value or a non-2xx response embeds `output`; a
non-2xx response that embeds `output` yields the failed `ExecutionResult`
built from the body (success `false`, embedded-or-default error, embedded
logs) rather than a throw; the thrown error carries the `(status, body)`
payload exactly when the response is non-2xx and its body is missing or
parses to a truthy value without an `output` field — a non-2xx body that
parses to a falsy JSON value is rethrown as a generic message without the
payload. -/
theorem claim_c2_amended_execute_taxonomy (r : HttpResponse) :
    execOutcomeOk (handleExecuteResponse (.success r))
      = (if r.ok then parsesNonNull r.body else embedsOutput r.body)
    ∧ thrownPayload (handleExecuteResponse (.success r))
      = (if (!r.ok && !embedsOutput r.body && bodyTruthyOrMissing r.body) = true
         then some (r.status, r.body.getD (.obj [])) else none)
    ∧ (∀ b, r.body = some b → r.ok = false → embedsOutput r.body = true →
        handleExecuteResponse (.success r) = .ok (failedResultOfBody b)) := by
  rcases r with ⟨st, stx, body⟩
  by_cases hok : HttpResponse.ok ⟨st, stx, body⟩ = true
  · refine ⟨?_, ?_, ?_⟩
    · cases body with
      | none => simp [handleExecuteResponse, hok, parsesNonNull, execOutcomeOk]
      | some b =>
        cases b <;> simp [handleExecuteResponse, hok, parsesNonNull, execOutcomeOk]
    · cases body with
      | none => simp [handleExecuteResponse, hok, thrownPayload, SdkError.payload]
      | some b =>
        cases b <;> simp [handleExecuteResponse, hok, thrownPayload, SdkError.payload]
    · intro b hb hok2 hemb
      rw [hok] at hok2
      exact absurd hok2 (by simp)
  · rw [Bool.not_eq_true] at hok
    refine ⟨?_, ?_, ?_⟩
    · cases body with
      | none =>
        simp only [handleExecuteResponse, hok, Bool.false_eq_true, if_false]
        split_ifs <;> simp [execOutcomeOk, embedsOutput]
      | some b =>
        simp only [handleExecuteResponse, hok, Bool.false_eq_true, if_false]
        split_ifs with h1 h2 <;> simp_all [execOutcomeOk, embedsOutput]
    · cases body with
      | none =>
        simp only [handleExecuteResponse, hok, Bool.false_eq_true, if_false]
        split_ifs <;>
          simp_all [thrownPayload, SdkError.payload, handleApiError, Json.truthy,
            embedsOutput, bodyTruthyOrMissing]
      | some b =>
        simp only [handleExecuteResponse, hok, Bool.false_eq_true, if_false]
        by_cases hbt : b.truthy = true
        · by_cases hos : (b.getField "output").isSome = true
          · simp [thrownPayload, embedsOutput, hbt, hos]
          · rw [Bool.not_eq_true] at hos
            by_cases hst : (st != 0) = true
            · simp [thrownPayload, SdkError.payload, embedsOutput, bodyTruthyOrMissing,
                hbt, hos, hst]
            · rw [Bool.not_eq_true] at hst
              simp [thrownPayload, SdkError.payload, embedsOutput, bodyTruthyOrMissing,
                hbt, hos, hst, handleApiError]
        · rw [Bool.not_eq_true] at hbt
          simp [thrownPayload, SdkError.payload, embedsOutput, bodyTruthyOrMissing,
            hbt, handleApiError]
    · intro b hb hok2 hemb
      subst hb
      have hemb2 : (b.truthy && (b.getField "output").isSome) = true := by
        simpa [embedsOutput] using hemb
      simp [handleExecuteResponse, hok, hemb2]

/-- C2 counterexample: the claim says every non-2xx response whose JSON body
embeds no `output` field makes `execute` throw an error carrying the HTTP
status and response body.  For a 500 response whose body is `null` (which
embeds no `output` field), `execute` throws a generic error that carries
neither: the inline API error fails the rethrow guard (`error.apiResponse`
is falsy) and `handleApiError` drops the structured payload. -/
theorem claim_c2_counterexample :
    resp500null.ok = false
    ∧ embedsOutput resp500null.body = false
    ∧ handleExecuteResponse (.success resp500null)
        = .error (.generic "Failed to execute workflow: API error: 500 Internal Server Error")
    ∧ thrownPayload (handleExecuteResponse (.success resp500null)) = none :=
  ⟨rfl, rfl, rfl, rfl⟩

/-- Witness for C2 at a 500 response embedding partial execution data. -/
theorem claim_c2_witness :
    handleExecuteResponse (.success resp500embedded)
      = .ok (failedResultOfBody (resp500embedded.body.getD (.obj [])))
    ∧ execOutcomeOk (handleExecuteResponse (.success resp500embedded)) = true := by
  have h := claim_c2_amended_execute_taxonomy resp500embedded
  refine ⟨h.2.2 (resp500embedded.body.getD (.obj [])) rfl rfl rfl, ?_⟩
  rw [h.1]
  rfl

/-- C6 (amended): the branching `saveWorkflow` issues a PUT to the
workflow's own endpoint exactly when the workflow has a (non-empty) id and
a POST create to the collection endpoint exactly when it has none; the db
`saveWorkflow` variant and the save step of `executeWorkflow`, however,
always issue a POST to `/api/db/workflow` — an in-place upsert keyed by the
workflow's id (or a freshly generated one), so saving twice with the same
id still never creates a second entry key. -/
theorem claim_c6_amended_save_update_vs_create (w : Workflow) (env : DbSaveEnv) (eenv : ExecEnv) :
    ((SimStudio.saveWorkflowRequest w).method = HttpMethod.put ↔ strTruthy w.id = true)
    ∧ ((SimStudio.saveWorkflowRequest w).method = HttpMethod.post ↔ strTruthy w.id = false)
    ∧ (∀ i, w.id = some i → i ≠ "" →
        (SimStudio.saveWorkflowRequest w).endpoint = .workflowById i)
    ∧ (w.id = none → (SimStudio.saveWorkflowRequest w).endpoint = .workflows)
    ∧ (saveWorkflowDbRequest env w).method = HttpMethod.post
    ∧ (saveWorkflowDbRequest env w).endpoint = .dbWorkflow
    ∧ dbPayloadKey (saveWorkflowDbRequest env w) = some (jsOrStr w.id (env.uuid 0))
    ∧ (executeWorkflowSaveRequest eenv w).method = HttpMethod.post
    ∧ (executeWorkflowSaveRequest eenv w).endpoint = .dbWorkflow
    ∧ dbPayloadKey (executeWorkflowSaveRequest eenv w) = some (jsOrStr w.id eenv.uuid) := by
  refine ⟨?_, ?_, ?_, ?_, rfl, rfl, rfl, rfl, rfl, rfl⟩
  · by_cases h : strTruthy w.id = true <;>
      simp [SimStudio.saveWorkflowRequest, h]
  · by_cases h : strTruthy w.id = true <;>
      simp [SimStudio.saveWorkflowRequest, h]
  · intro i hi hne
    simp [SimStudio.saveWorkflowRequest, strTruthy, hi, hne]
  · intro hnone
    simp [SimStudio.saveWorkflowRequest, strTruthy, hnone]

/-- C6 counterexample: the claim says `saveWorkflow` applied to a workflow
that already has an id never issues a POST.  The db `saveWorkflow` variant
(and the save step of `executeWorkflow`) issues a POST to
`/api/db/workflow` for the workflow with id `wf-1`. -/
theorem claim_c6_counterexample :
    strTruthy wfWithId.id = true
    ∧ (saveWorkflowDbRequest dbEnvC6 wfWithId).method = HttpMethod.post
    ∧ (saveWorkflowDbRequest dbEnvC6 wfWithId).method ≠ HttpMethod.put
    ∧ (saveWorkflowDbRequest dbEnvC6 wfWithId).endpoint ≠ .workflowById "wf-1" := by
  refine ⟨rfl, rfl, by decide, by decide⟩

/-- Witness for C6 at the workflow `wf-1`: the branching variant PUTs to
its endpoint while the db variant's payload is keyed by `wf-1`. -/
theorem claim_c6_witness :
    (SimStudio.saveWorkflowRequest wfWithId).method = HttpMethod.put
    ∧ (SimStudio.saveWorkflowRequest wfWithId).endpoint = .workflowById "wf-1"
    ∧ dbPayloadKey (saveWorkflowDbRequest dbEnvC6 wfWithId) = some "wf-1" := by
  have h := claim_c6_amended_save_update_vs_create wfWithId dbEnvC6 c1Env
  exact ⟨h.1.mpr rfl, h.2.2.1 "wf-1" rfl (by decide), h.2.2.2.2.2.2.1⟩

/-- Loop invariants of `runLoop` entered at body `i` with `runCounter = i`:
the final counter counts exactly the completed run events on top of `i`;
the loop itself notifies only on a quota stop, and then the single
notification quotes the final counter; and a quota stop happens only after
at least one completed run of this loop segment. -/
theorem runLoop_spec (env : MultiRunEnv) : ∀ (fuel i : Nat),
    (runLoop env fuel i i).counter = i + (runLoop env fuel i i).events.countP isRunEvent
    ∧ (runLoop env fuel i i).events.filter isNotifyEvent
        = (if (runLoop env fuel i i).exit = .quotaBreak
           then [.notify .info (quotaMsg (runLoop env fuel i i).counter)] else [])
    ∧ ((runLoop env fuel i i).exit = .quotaBreak →
        0 < (runLoop env fuel i i).events.countP isRunEvent) := by
  intro fuel
  induction fuel with
  | zero =>
    intro i
    simp [runLoop]
  | succ f ih =>
    intro i
    by_cases hc : env.cancelFlagAt i = true
    · simp [runLoop, hc, isRunEvent, isNotifyEvent, List.countP_cons]
    · rw [Bool.not_eq_true] at hc
      by_cases hf : env.runFails i = true
      · simp [runLoop, hc, hf, isRunEvent, isNotifyEvent, List.countP_cons]
      · rw [Bool.not_eq_true] at hf
        have hmain := ih (i + 1)
        by_cases hs : (shouldCheckUsage env.runCount i && env.hasSession) = true
        · cases hu : env.usageAt i with
          | some usage =>
            by_cases he : usage.isExceeded = true
            · by_cases hlt : i < env.runCount - 1
              · simp [runLoop, hc, hf, hs, hu, he, hlt, isRunEvent, isNotifyEvent,
                  List.countP_cons, List.countP_append, List.filter_append]
              · simp only [runLoop, hc, hf, hs, hu, he, hlt, Bool.false_eq_true,
                  if_false, if_true]
                simp [isRunEvent, isNotifyEvent, List.countP_cons, List.countP_append,
                  List.filter_append, hmain.1, hmain.2.1, hlt]
                omega
            · rw [Bool.not_eq_true] at he
              simp only [runLoop, hc, hf, hs, hu, he, Bool.false_eq_true, if_false, if_true]
              simp [isRunEvent, isNotifyEvent, List.countP_cons, List.countP_append,
                List.filter_append, hmain.1, hmain.2.1]
              omega
          | none =>
            simp only [runLoop, hc, hf, hs, hu]
            simp [isRunEvent, isNotifyEvent, List.countP_cons, List.countP_append,
              List.filter_append, hmain.1, hmain.2.1]
            omega
        · simp only [runLoop, hc, hf, hs, Bool.false_eq_true, if_false]
          simp [isRunEvent, isNotifyEvent, List.countP_cons, List.countP_append,
            List.filter_append, hmain.1, hmain.2.1]
          omega

/-- If the cancellation flag first reads true at loop entry `i + d`, and the
`d` bodies before it all complete without a failure or an exceeded-quota
observation, `runLoop` exits cancelled with exactly those `d` runs
counted. -/
theorem runLoop_cancel_at (env : MultiRunEnv) : ∀ (d fuel i : Nat), d < fuel →
    (∀ j, j < d → env.cancelFlagAt (i + j) = false ∧ env.runFails (i + j) = false ∧
      Option.all (fun u => !u.isExceeded) (env.usageAt (i + j)) = true) →
    env.cancelFlagAt (i + d) = true →
    (runLoop env fuel i i).exit = .cancelled ∧ (runLoop env fuel i i).counter = i + d := by
  intro d
  induction d with
  | zero =>
    intro fuel i hfuel hpre hflag
    match fuel, hfuel with
    | f + 1, _ =>
      rw [Nat.add_zero] at hflag
      simp [runLoop, hflag]
  | succ d ih =>
    intro fuel i hfuel hpre hflag
    match fuel, hfuel with
    | f + 1, hfuel =>
      obtain ⟨hc, hf, hu⟩ := hpre 0 (Nat.succ_pos d)
      rw [Nat.add_zero] at hc hf hu
      have hrest := ih f (i + 1) (by omega)
        (by
          intro j hj
          have h := hpre (j + 1) (by omega)
          constructor
          · rw [show i + 1 + j = i + (j + 1) by omega]
            exact h.1
          constructor
          · rw [show i + 1 + j = i + (j + 1) by omega]
            exact h.2.1
          · rw [show i + 1 + j = i + (j + 1) by omega]
            exact h.2.2)
        (by
          rw [show i + 1 + d = i + (d + 1) by omega]
          exact hflag)
      have hgoal : i + 1 + d = i + (d + 1) := by omega
      by_cases hs : (shouldCheckUsage env.runCount i && env.hasSession) = true
      · cases husage : env.usageAt i with
        | some usage =>
          have hex : usage.isExceeded = false := by
            rw [husage] at hu
            simpa [Option.all] using hu
          simp only [runLoop, hc, hf, hs, husage, hex, Bool.false_eq_true, if_false, if_true]
          rw [hgoal] at hrest
          exact hrest
        | none =>
          simp only [runLoop, hc, hf, hs, husage, Bool.false_eq_true, if_false, if_true]
          rw [hgoal] at hrest
          exact hrest
      · simp only [runLoop, hc, hf, hs, Bool.false_eq_true, if_false]
        rw [hgoal] at hrest
        exact hrest

/-- A loop with no cancellation, no run failure and no exceeded-quota
observation completes all its iterations and its trace is the
concatenation of the per-body event segments. -/
theorem runLoop_clean (env : MultiRunEnv)
    (h : ∀ j, env.cancelFlagAt j = false ∧ env.runFails j = false ∧
      Option.all (fun u => !u.isExceeded) (env.usageAt j) = true) :
    ∀ fuel i, runLoop env fuel i i
      = { counter := i + fuel, exit := .finished,
          events := (List.range fuel).flatMap (fun j => bodyEvents env (i + j)) } := by
  intro fuel
  induction fuel with
  | zero =>
    intro i
    simp [runLoop]
  | succ f ih =>
    intro i
    obtain ⟨hc, hf, hu⟩ := h i
    have hrest := ih (i + 1)
    have hevts : (List.range (f + 1)).flatMap (fun j => bodyEvents env (i + j))
        = bodyEvents env i ++ (List.range f).flatMap (fun j => bodyEvents env (i + 1 + j)) := by
      rw [List.range_succ_eq_map, List.flatMap_cons, List.flatMap_map]
      have harg : (fun a => bodyEvents env (i + Nat.succ a))
          = fun j => bodyEvents env (i + 1 + j) := by
        funext a
        congr 1
        omega
      rw [harg, Nat.add_zero]
    rw [hevts]
    by_cases hs : (shouldCheckUsage env.runCount i && env.hasSession) = true
    · cases husage : env.usageAt i with
      | some usage =>
        have hex : usage.isExceeded = false := by
          rw [husage] at hu
          simpa [Option.all] using hu
        simp only [runLoop, hc, hf, hs, husage, hex, Bool.false_eq_true, if_false, if_true]
        rw [hrest]
        simp [bodyEvents, hs, husage]
        omega
      | none =>
        simp only [runLoop, hc, hf, hs, husage, Bool.false_eq_true, if_false, if_true]
        rw [hrest]
        simp [bodyEvents, hs, husage]
        omega
    · simp only [runLoop, hc, hf, hs, Bool.false_eq_true, if_false]
      rw [hrest]
      simp [bodyEvents, hs]
      omega

/-- The batch a started run produces, written out: loop result, then the
stats call (unless cancelled or errored), then the final notification. -/
theorem handleMultipleRuns_eq (env : MultiRunEnv)
    (hguard : (env.runCount == 0 || env.usageExceededState) = false) :
    handleMultipleRuns env = some
      { completedRuns := (runLoop env env.runCount 0 0).counter,
        exit := (runLoop env env.runCount 0 0).exit,
        events := (runLoop env env.runCount 0 0).events
          ++ (if (runLoop env env.runCount 0 0).exit ≠ .cancelled ∧
                 (runLoop env env.runCount 0 0).exit ≠ .errored ∧ env.hasActiveWorkflow
              then [.statsCall (runLoop env env.runCount 0 0).counter] else [])
          ++ (if (runLoop env env.runCount 0 0).exit = .cancelled
              then [.notify .info "Workflow run cancelled"]
              else if (runLoop env env.runCount 0 0).exit = .errored
              then [.notify .errorKind "Failed to complete all workflow runs"]
              else if 1 < env.runCount then [completedNotifyEvent env] else []) } := by
  unfold handleMultipleRuns
  simp only [hguard, Bool.false_eq_true, if_false]

/-- C3 (amended): if cancellation is requested after iteration `k` has
completed (the flag reads false at the first `k` loop entries and true at
entry `k`), `k < N`, the first `k` runs succeeded, and no usage check
during those `k` iterations observed the quota exceeded, then the batch
stops before starting iteration `k + 1`, the completed-runs counter ends at
`k`, and the terminal report is exactly the cancellation notification.
(Without the quota proviso the terminal report can be the quota stop
instead — see the counterexample.) -/
theorem claim_c3_amended_cancellation (env : MultiRunEnv) (k : Nat)
    (hstate : env.usageExceededState = false)
    (hk : k < env.runCount)
    (hpre : ∀ j, j < k → env.cancelFlagAt j = false ∧ env.runFails j = false ∧
      Option.all (fun u => !u.isExceeded) (env.usageAt j) = true)
    (hflag : env.cancelFlagAt k = true) :
    ∃ b, handleMultipleRuns env = some b
      ∧ b.exit = .cancelled
      ∧ b.completedRuns = k
      ∧ b.events.countP isRunEvent = k
      ∧ notificationsOf b = [.notify .info "Workflow run cancelled"] := by
  obtain ⟨hexit, hcounter⟩ := runLoop_cancel_at env k env.runCount 0 hk
    (by
      intro j hj
      simpa using hpre j hj)
    (by simpa using hflag)
  rw [Nat.zero_add] at hcounter
  have hspec := runLoop_spec env env.runCount 0
  have hcount : (runLoop env env.runCount 0 0).events.countP isRunEvent = k := by
    have := hspec.1
    omega
  have hnotif : (runLoop env env.runCount 0 0).events.filter isNotifyEvent = [] := by
    rw [hspec.2.1, hexit]
    simp
  have hguard : (env.runCount == 0 || env.usageExceededState) = false := by
    simp [hstate]
    omega
  refine ⟨_, handleMultipleRuns_eq env hguard, ?_, ?_, ?_, ?_⟩
  · exact hexit
  · exact hcounter
  · simp [hexit, List.countP_append, hcount, isRunEvent]
  · simp [notificationsOf, hexit, List.filter_append, hnotif, isNotifyEvent]

/-- C4 (amended): for every batch that starts, the final completed-runs
counter equals the number of completed run events (no completed run is
rolled back or dropped), and a quota stop happens only after at least one
completed (and counted) iteration.  The terminal reporting is by loop
exit: Cancelled and run-failure batches emit exactly their one
notification, but a quota-stopped multi-run batch emits the quota-stop
notification followed by the Completed notification (which interpolates
the stale captured counter), and a single-run batch emits no completion
notification at all — so the terminal report is not always exactly one of
the three claimed outcomes. -/
theorem claim_c4_amended_terminal_reports (env : MultiRunEnv)
    (hstate : env.usageExceededState = false) (hrc : env.runCount ≠ 0) :
    ∃ b, handleMultipleRuns env = some b
      ∧ b.completedRuns = b.events.countP isRunEvent
      ∧ (b.exit = .quotaBreak → 0 < b.completedRuns)
      ∧ notificationsOf b
          = (match b.exit with
             | .cancelled => [.notify .info "Workflow run cancelled"]
             | .errored => [.notify .errorKind "Failed to complete all workflow runs"]
             | .quotaBreak => .notify .info (quotaMsg b.completedRuns)
                 :: (if 1 < env.runCount then [completedNotifyEvent env] else [])
             | .finished => if 1 < env.runCount then [completedNotifyEvent env] else []) := by
  have hspec := runLoop_spec env env.runCount 0
  have hguard : (env.runCount == 0 || env.usageExceededState) = false := by
    simp [hstate]
    omega
  refine ⟨_, handleMultipleRuns_eq env hguard, ?_, ?_, ?_⟩
  · have h1 := hspec.1
    simp only [List.countP_append, apply_ite (List.countP isRunEvent)]
    simp [isRunEvent, completedNotifyEvent]
    omega
  · intro hq
    simp only at hq
    have h3 := hspec.2.2 hq
    have h1 := hspec.1
    simp only
    omega
  · cases hexit : (runLoop env env.runCount 0 0).exit with
    | finished =>
      have hnotif : List.filter isNotifyEvent (runLoop env env.runCount 0 0).events = [] := by
        rw [hspec.2.1, hexit]
        simp
      simp only [notificationsOf, hexit]
      by_cases hgt : 1 < env.runCount <;>
        simp [List.filter_append, apply_ite (List.filter isNotifyEvent), hnotif,
          isNotifyEvent, completedNotifyEvent, hgt]
    | cancelled =>
      have hnotif : List.filter isNotifyEvent (runLoop env env.runCount 0 0).events = [] := by
        rw [hspec.2.1, hexit]
        simp
      simp only [notificationsOf, hexit]
      simp [List.filter_append, apply_ite (List.filter isNotifyEvent), hnotif,
        isNotifyEvent]
    | quotaBreak =>
      have hnotif : List.filter isNotifyEvent (runLoop env env.runCount 0 0).events
          = [.notify .info (quotaMsg (runLoop env env.runCount 0 0).counter)] := by
        rw [hspec.2.1, hexit]
        simp
      simp only [notificationsOf, hexit]
      by_cases hgt : 1 < env.runCount <;>
        simp [List.filter_append, apply_ite (List.filter isNotifyEvent), hnotif,
          isNotifyEvent, completedNotifyEvent, hgt]
    | errored =>
      have hnotif : List.filter isNotifyEvent (runLoop env env.runCount 0 0).events = [] := by
        rw [hspec.2.1, hexit]
        simp
      simp only [notificationsOf, hexit]
      simp [List.filter_append, apply_ite (List.filter isNotifyEvent), hnotif,
        isNotifyEvent]

/-- One undisturbed body contributes a usage check exactly on cadence
iterations (and only with a session). -/
theorem bodyEvents_filterMap_usage (env : MultiRunEnv) (i : Nat) :
    (bodyEvents env i).filterMap usageCheckIdx
      = if shouldCheckUsage env.runCount i && env.hasSession then [i] else [] := by
  by_cases h : (shouldCheckUsage env.runCount i && env.hasSession) = true <;>
    simp [bodyEvents, h, usageCheckIdx]

/-- Usage checks of a concatenation of undisturbed bodies are the cadence
iterations among them. -/
theorem flatMap_filterMap_usage (env : MultiRunEnv) (l : List Nat) :
    (l.flatMap (fun j => bodyEvents env j)).filterMap usageCheckIdx
      = l.filter (fun j => shouldCheckUsage env.runCount j && env.hasSession) := by
  induction l with
  | nil => simp
  | cons a l ih =>
    rw [List.flatMap_cons, List.filterMap_append, bodyEvents_filterMap_usage, ih]
    by_cases h : (shouldCheckUsage env.runCount a && env.hasSession) = true <;>
      simp [h, List.filter_cons]

/-- C5 (amended): in an undisturbed batch with a session, the usage check
runs after the 1st run (not before it — the first three events are the
cancellation check, the first run and the counter publication), then after
every 5th run and after the final run, and on no other run; and
`checkUserUsage` reuses a cached snapshot younger than its expiration (60
seconds in the initial module cache) without a network call whenever a
refresh is not forced. -/
theorem claim_c5_amended_usage_cadence (env : MultiRunEnv)
    (hstate : env.usageExceededState = false) (hrc : env.runCount ≠ 0)
    (hsession : env.hasSession = true)
    (hclean : ∀ j, env.cancelFlagAt j = false ∧ env.runFails j = false ∧
      Option.all (fun u => !u.isExceeded) (env.usageAt j) = true) :
    ∃ b, handleMultipleRuns env = some b
      ∧ b.events.filterMap usageCheckIdx
          = (List.range env.runCount).filter (fun i => shouldCheckUsage env.runCount i)
      ∧ b.events.take 3 = [.cancelCheck 0 false, .run 0, .setCompleted 1]
      ∧ (b.events.filterMap usageCheckIdx).head? = some 0
      ∧ (4 ≤ env.runCount → (b.events.filterMap usageCheckIdx).length < env.runCount)
      ∧ (∀ (cache : UsageCache) (now : Nat) (d : UsageSnapshot) (fetch : UsageFetch),
          cache.data = some d → now - cache.timestamp < cache.expirationMs →
          checkUserUsage cache now false fetch
            = { result := some d, cache := cache, network := false })
      ∧ usageDataCacheInit.expirationMs = 60 * 1000 := by
  have hguard : (env.runCount == 0 || env.usageExceededState) = false := by
    simp [hstate]
    omega
  have hloop := runLoop_clean env hclean env.runCount 0
  have hevts : (runLoop env env.runCount 0 0).events
      = (List.range env.runCount).flatMap (fun j => bodyEvents env j) := by
    rw [hloop]
    simp
  have hexit : (runLoop env env.runCount 0 0).exit = .finished := by
    rw [hloop]
  have hchecks : (runLoop env env.runCount 0 0).events.filterMap usageCheckIdx
      = (List.range env.runCount).filter (fun i => shouldCheckUsage env.runCount i) := by
    rw [hevts, flatMap_filterMap_usage]
    simp [hsession]
  refine ⟨_, handleMultipleRuns_eq env hguard, ?_, ?_, ?_, ?_, ?_, ?_⟩
  · simp only [List.filterMap_append, hchecks, apply_ite (List.filterMap usageCheckIdx)]
    simp [usageCheckIdx, completedNotifyEvent]
  · simp only [hevts]
    match hn : env.runCount, hrc with
    | n + 1, _ =>
      rw [List.range_succ_eq_map, List.flatMap_cons]
      simp [bodyEvents, List.take_append]
  · simp only [List.filterMap_append, hchecks, apply_ite (List.filterMap usageCheckIdx)]
    simp only [List.head?_append]
    match hn : env.runCount, hrc with
    | n + 1, _ =>
      rw [List.range_succ_eq_map]
      rw [List.filter_cons_of_pos (by simp [shouldCheckUsage])]
      simp [usageCheckIdx, completedNotifyEvent]
  · intro h4
    simp only [List.filterMap_append, hchecks, apply_ite (List.filterMap usageCheckIdx)]
    have hlen : ((List.range env.runCount).filter
        (fun i => shouldCheckUsage env.runCount i)).length < env.runCount := by
      have hmem : (1 : Nat) ∈ List.range env.runCount := by
        rw [List.mem_range]
        omega
      have hnot : shouldCheckUsage env.runCount 1 = false := by
        simp [shouldCheckUsage]
        omega
      calc ((List.range env.runCount).filter (fun i => shouldCheckUsage env.runCount i)).length
          < (List.range env.runCount).length := by
            apply List.length_filter_lt_length_iff_exists.mpr
            exact ⟨1, hmem, by simp [hnot]⟩
        _ = env.runCount := List.length_range env.runCount
    simp [usageCheckIdx, completedNotifyEvent]
    omega
  · intro cache now d fetch hdata hage
    simp [checkUserUsage, hdata, hage]
  · rfl

/-- C3 counterexample: cancellation is requested after iteration 1 of a
2-run batch (k = 1 < N = 2), yet the terminal report is the quota stop,
not Cancelled: the usage check that follows iteration 1 observes the quota
exceeded and breaks before the cancellation flag is ever read. -/
theorem claim_c3_counterexample :
    c3cEnv.cancelFlagAt 0 = false
    ∧ c3cEnv.cancelFlagAt 1 = true
    ∧ (handleMultipleRuns c3cEnv).map (fun b => b.exit) = some .quotaBreak
    ∧ (handleMultipleRuns c3cEnv).map (fun b => b.completedRuns) = some 1
    ∧ (handleMultipleRuns c3cEnv).map
        (fun b => (notificationsOf b).contains (.notify .info "Workflow run cancelled"))
        = some false := by
  refine ⟨rfl, rfl, rfl, rfl, ?_⟩
  decide

/-- Witness for C3 (amended): a 10-run batch cancelled after iteration 3
ends cancelled at 3 completed runs with exactly the cancellation
notification. -/
theorem claim_c3_witness :
    (handleMultipleRuns c3wEnv).map (fun b => b.exit) = some .cancelled
    ∧ (handleMultipleRuns c3wEnv).map (fun b => b.completedRuns) = some 3
    ∧ (handleMultipleRuns c3wEnv).map notificationsOf
        = some [.notify .info "Workflow run cancelled"] := by
  obtain ⟨b, hb, hexit, hcount, hruns, hnotif⟩ :=
    claim_c3_amended_cancellation c3wEnv 3 rfl (by decide) (by decide) (by decide)
  rw [hb]
  simp [hexit, hcount, hnotif]

/-- C4 counterexample: a quota-stopped 2-run batch ends with two terminal
reports, the quota-stop notification and the Completed notification (which
moreover interpolates the stale captured counter 0 although one run
completed) — not exactly one of Cancelled, QuotaExceeded-stopped,
Completed. -/
theorem claim_c4_counterexample :
    (handleMultipleRuns c4cEnv).map notificationsOf
      = some [.notify .info "Usage limit reached after 1 runs. Execution stopped.",
              .notify .console "Completed 0 workflow runs"]
    ∧ (handleMultipleRuns c4cEnv).map (fun b => (notificationsOf b).length) = some 2
    ∧ (handleMultipleRuns c4cEnv).map (fun b => b.completedRuns) = some 1 := by
  refine ⟨?_, ?_, rfl⟩ <;> decide

/-- Witness for C4 (amended) at a clean 2-run batch: the final counter
equals the number of completed run events. -/
theorem claim_c4_witness :
    (handleMultipleRuns c4wEnv).map (fun b => b.completedRuns)
      = (handleMultipleRuns c4wEnv).map (fun b => b.events.countP isRunEvent) := by
  obtain ⟨b, hb, h1, h2, h3⟩ :=
    claim_c4_amended_terminal_reports c4wEnv rfl (by decide)
  rw [hb]
  simp [h1]

/-- C5 counterexample: the claim says the usage check is performed before
the 1st run.  In a 3-run batch the first usage-check event sits at index 3
of the trace while the first run event sits at index 1: the first check
happens after the first run completes, not before it. -/
theorem claim_c5_counterexample :
    (handleMultipleRuns c5cEnv).map (fun b => b.events.findIdx isUsageCheckEvent) = some 3
    ∧ (handleMultipleRuns c5cEnv).map (fun b => b.events.findIdx isRunEvent) = some 1
    ∧ (handleMultipleRuns c5cEnv).map
        (fun b => (b.events.filter isUsageCheckEvent).length) = some 2 := by
  refine ⟨?_, ?_, ?_⟩ <;> decide

/-- Witness for C5 (amended) at a clean 7-run batch: checks exactly after
runs 1, 5 and 7, and a 30-second-old cached snapshot is reused without a
network call. -/
theorem claim_c5_witness :
    (handleMultipleRuns c5wEnv).map (fun b => b.events.filterMap usageCheckIdx)
      = some [0, 4, 6]
    ∧ checkUserUsage c5Cache 30000 false .failure
        = { result := some { isExceeded := false }, cache := c5Cache, network := false } := by
  obtain ⟨b, hb, hchecks, h3, hh, hne, hcache, hexp⟩ :=
    claim_c5_amended_usage_cadence c5wEnv rfl (by decide) rfl (fun j => ⟨rfl, rfl, rfl⟩)
  constructor
  · have hv : List.filterMap usageCheckIdx b.events = [0, 4, 6] := by
      rw [hchecks]
      decide
    rw [hb]
    simp [hv]
  · exact hcache c5Cache 30000 { isExceeded := false } .failure rfl (by decide)

/-- Delivery is attempted for exactly the ids of the emails passed to
`processEmails`, in order, whatever the per-item outcomes. -/
theorem processEmails_attempted (env : PollEnv) :
    ∀ emails : List Email, (processEmails env emails).2 = emails.map (fun e => e.id) := by
  intro emails
  induction emails with
  | nil => rfl
  | cons e rest ih =>
    unfold processEmails
    cases env.delivery e.id <;> simp [ih]

/-- The single-item cut only selects among the remaining new emails. -/
theorem mem_emailsToProcessOf (cfg : GmailConfig) (l : List Email) (e : Email)
    (h : e ∈ emailsToProcessOf cfg l) : e ∈ l := by
  unfold emailsToProcessOf at h
  split at h
  · exact List.mem_of_mem_take h
  · exact h

/-- Every remaining new email has an id outside the processed-id set. -/
theorem newEmailsOf_not_contains (cfg : GmailConfig) (emails : List Email) (e : Email)
    (h : e ∈ newEmailsOf cfg emails) :
    ((cfg.processedEmailIds.getD []).contains e.id) = false := by
  unfold newEmailsOf at h
  have := (List.mem_filter.mp h).2
  simpa using this

/-- C7: an item id present in the processed-id set at the start of a tick
is never among the ids the tick attempts to deliver, whatever the upstream
query returned. -/
theorem claim_c7_processed_ids_not_redelivered (env : PollEnv) (cfg : GmailConfig) (id : String)
    (hid : id ∈ cfg.processedEmailIds.getD []) :
    id ∉ (pollGmailWebhookTick env cfg).deliveredAttempts := by
  intro hmem
  unfold pollGmailWebhookTick at hmem
  dsimp only at hmem
  split at hmem
  · simp at hmem
  · split at hmem
    · simp at hmem
    · split at hmem
      · simp at hmem
      · split at hmem
        · simp at hmem
        · split at hmem
          · simp at hmem
          · simp only at hmem
            rw [processEmails_attempted] at hmem
            obtain ⟨e, he, heid⟩ := List.mem_map.mp hmem
            have h2 := mem_emailsToProcessOf _ _ _ he
            have h3 := newEmailsOf_not_contains _ _ _ h2
            rw [heid] at h3
            simp at h3
            exact h3 hid

/-- C8: after a tick that attempts deliveries, the persisted processed-id
list is the previous list extended by the ids of all attempted items —
whatever the delivery outcomes — and trimmed to the most recent at most
100 entries, oldest evicted first. -/
theorem claim_c8_processed_ids_persisted (env : PollEnv) (cfg : GmailConfig)
    (h : (pollGmailWebhookTick env cfg).deliveredAttempts ≠ []) :
    ∃ pc, (pollGmailWebhookTick env cfg).persisted = some pc
      ∧ pc.processedEmailIds
          = some (takeLast 100 ((cfg.processedEmailIds.getD [])
              ++ (pollGmailWebhookTick env cfg).deliveredAttempts))
      ∧ (∀ l, pc.processedEmailIds = some l → l.length ≤ 100) := by
  by_cases h1 : env.hasUserId = true
  · by_cases h2 : env.hasToken = true
    · by_cases h3 : cfg.processIncomingEmails = true
      · by_cases h4 : (fetchNewEmails env cfg).emails.isEmpty = true
        · exact absurd (by simp [pollGmailWebhookTick, h1, h2, h3, h4]) h
        · by_cases h5 : (newEmailsOf cfg (fetchNewEmails env cfg).emails).isEmpty = true
          · exact absurd (by simp [pollGmailWebhookTick, h1, h2, h3, h4, h5]) h
          · have htick : pollGmailWebhookTick env cfg
                = { status := .processedOk (fetchNewEmails env cfg).emails.length
                      (newEmailsOf cfg (fetchNewEmails env cfg).emails).length
                      (processEmails env (emailsToProcessOf cfg
                        (newEmailsOf cfg (fetchNewEmails env cfg).emails))).1,
                    persisted := some (updateWebhookData cfg env.now
                      (jsOrStrOpt (fetchNewEmails env cfg).latestHistoryId cfg.historyId)
                      (some (takeLast 100 ((cfg.processedEmailIds.getD [])
                        ++ (emailsToProcessOf cfg
                            (newEmailsOf cfg (fetchNewEmails env cfg).emails)).map
                              (fun e => e.id))))),
                    deliveredAttempts := (processEmails env (emailsToProcessOf cfg
                      (newEmailsOf cfg (fetchNewEmails env cfg).emails))).2 } := by
              simp [pollGmailWebhookTick, h1, h2, h3, h4, h5]
            rw [htick]
            refine ⟨_, rfl, ?_, ?_⟩
            · simp [updateWebhookData, processEmails_attempted]
            · intro l hl
              simp [updateWebhookData] at hl
              rw [← hl]
              unfold takeLast
              simp
              omega
      · exact absurd (by simp [pollGmailWebhookTick, h1, h2, h3]) h
    · exact absurd (by simp [pollGmailWebhookTick, h1, h2]) h
  · exact absurd (by simp [pollGmailWebhookTick, h1]) h

/-- C9: in single-item mode, when more than one new email remains after
the processed-id filter of a tick, only the head of the remaining list —
the most recent one, given that the fetch stage hands emails over
most-recent-first — gets a delivery attempt; none of the other remaining
emails is delivered in that tick.  (The theorem takes the fetched list as
an input: the tick's own fetch stage already cuts to a single message in
single-email mode, so this guard of the tick is its defensive second
line.) -/
theorem claim_c9_single_item_mode (env : PollEnv) (cfg : GmailConfig) (emails : List Email)
    (hsingle : cfg.singleEmailMode = true)
    (hsorted : emails.Pairwise (fun a b => b.internalDate ≤ a.internalDate))
    (hmulti : 1 < (newEmailsOf cfg emails).length) :
    ∃ e, (newEmailsOf cfg emails).head? = some e
      ∧ (processEmails env (emailsToProcessOf cfg (newEmailsOf cfg emails))).2 = [e.id]
      ∧ (∀ e2 ∈ newEmailsOf cfg emails, e2.internalDate ≤ e.internalDate)
      ∧ (∀ e2 ∈ (newEmailsOf cfg emails).tail,
          e2.id ∉ (processEmails env (emailsToProcessOf cfg (newEmailsOf cfg emails))).2
          ∨ e2.id = e.id) := by
  cases hne : newEmailsOf cfg emails with
  | nil =>
    rw [hne] at hmulti
    simp at hmulti
  | cons e rest =>
    have hcut : emailsToProcessOf cfg (newEmailsOf cfg emails) = [e] := by
      unfold emailsToProcessOf
      rw [if_pos (by simp [hsingle, hmulti]), hne]
      rfl
    have hdel : (processEmails env (emailsToProcessOf cfg (newEmailsOf cfg emails))).2
        = [e.id] := by
      rw [hcut, processEmails_attempted]
      rfl
    have hpair : (newEmailsOf cfg emails).Pairwise
        (fun a b => b.internalDate ≤ a.internalDate) := by
      unfold newEmailsOf
      exact hsorted.filter _
    rw [hne] at hdel
    refine ⟨e, rfl, hdel, ?_, ?_⟩
    · intro e2 he2
      rw [hne] at hpair
      rcases List.mem_cons.mp he2 with hh | ht
      · rw [hh]
      · exact (List.pairwise_cons.mp hpair).1 e2 ht
    · intro e2 he2
      by_cases hid : e2.id = e.id
      · exact Or.inr hid
      · refine Or.inl ?_
        rw [hdel]
        simp [hid]

/-- C10: whenever fetching throws — at the history request, the search
request, or any per-item detail fetch — `fetchNewEmails` returns an empty
email list instead of propagating, and the tick is then reported
successful as `no_emails` while persisting the advanced last-checked
timestamp; no delivery is attempted and the tick is not a failure for that
subscription. -/
theorem claim_c10_fetch_failure_reported_no_emails (env : PollEnv) (cfg : GmailConfig)
    (h1 : env.hasUserId = true) (h2 : env.hasToken = true)
    (h3 : cfg.processIncomingEmails = true)
    (hfail :
      (strTruthy cfg.historyId = true ∧ env.historyOutcome = .throws)
      ∨ (searchPathUsed env cfg ∧ env.searchOutcome = .throws)
      ∨ (searchPathUsed env cfg ∧ ∃ ids, env.searchOutcome = .ok ids
          ∧ fetchDetails env (searchIdsToFetch cfg ids) = none)
      ∨ (strTruthy cfg.historyId = true ∧ ∃ d, env.historyOutcome = .ok d
          ∧ fetchDetails env (historyIdsToFetch cfg d) = none)) :
    (fetchNewEmails env cfg).emails = []
    ∧ (pollGmailWebhookTick env cfg).status = .noEmails
    ∧ (∃ pc, (pollGmailWebhookTick env cfg).persisted = some pc
        ∧ pc.lastCheckedTimestamp = some env.now)
    ∧ (pollGmailWebhookTick env cfg).deliveredAttempts = [] := by
  have hsearch : ∀ hs : searchPathUsed env cfg,
      (env.searchOutcome = .throws
        ∨ (∃ ids, env.searchOutcome = .ok ids
            ∧ fetchDetails env (searchIdsToFetch cfg ids) = none)) →
      (fetchNewEmails env cfg).emails = [] := by
    intro hs hcase
    have hse : (searchEmails env cfg).emails = [] := by
      rcases hcase with hthrow | ⟨ids, hok, hdet⟩
      · simp [searchEmails, hthrow]
      · unfold searchEmails
        rw [hok]
        dsimp only
        split
        · rfl
        · rw [hdet]
    rcases hs with hno | ⟨hyes, herr⟩
    · simp [fetchNewEmails, hno, hse]
    · simp [fetchNewEmails, hyes, herr, hse]
  have hempty : (fetchNewEmails env cfg).emails = [] := by
    rcases hfail with ⟨hh, hthrow⟩ | ⟨hs, hcase⟩ | ⟨hs, hcase⟩ | ⟨hh, d, hok, hdet⟩
    · simp [fetchNewEmails, hh, hthrow]
    · exact hsearch hs (Or.inl hcase)
    · exact hsearch hs (Or.inr hcase)
    · unfold fetchNewEmails
      rw [if_pos hh, hok]
      dsimp only
      split
      · rfl
      · split
        · rfl
        · rw [hdet]
  have h4 : (fetchNewEmails env cfg).emails.isEmpty = true := by
    rw [hempty]
    rfl
  have htick : pollGmailWebhookTick env cfg
      = { status := .noEmails,
          persisted := some (updateWebhookLastChecked cfg env.now
            (jsOrStrOpt (fetchNewEmails env cfg).latestHistoryId cfg.historyId)),
          deliveredAttempts := [] } := by
    simp [pollGmailWebhookTick, h1, h2, h3, h4]
  rw [htick]
  exact ⟨hempty, rfl, ⟨_, rfl, rfl⟩, rfl⟩

/-- Witness for C7: with `m1` already processed and the search returning
`m2` and `m1`, only `m2` gets a delivery attempt. -/
theorem claim_c7_witness :
    "m1" ∈ c7Cfg.processedEmailIds.getD []
    ∧ "m1" ∉ (pollGmailWebhookTick c7Env c7Cfg).deliveredAttempts
    ∧ (pollGmailWebhookTick c7Env c7Cfg).deliveredAttempts = ["m2"] :=
  ⟨by decide, claim_c7_processed_ids_not_redelivered c7Env c7Cfg "m1" (by decide), by decide⟩

/-- Witness for C8: a tick delivering `m2` (failing) and `m1` (succeeding)
persists both ids appended to the previous set. -/
theorem claim_c8_witness :
    (pollGmailWebhookTick c8Env c8Cfg).deliveredAttempts = ["m2", "m1"]
    ∧ (pollGmailWebhookTick c8Env c8Cfg).persisted.map (fun pc => pc.processedEmailIds)
        = some (some ["m0", "m2", "m1"]) := by
  obtain ⟨pc, hpc, hids, hlen⟩ := claim_c8_processed_ids_persisted c8Env c8Cfg (by decide)
  have hv : pc.processedEmailIds = some ["m0", "m2", "m1"] := by
    rw [hids]
    decide
  refine ⟨by decide, ?_⟩
  rw [hpc]
  simp [hv]

/-- Witness for C9: of three remaining new emails in single-item mode only
the most recent, `m3`, gets a delivery attempt. -/
theorem claim_c9_witness :
    (processEmails c7Env (emailsToProcessOf c9Cfg (newEmailsOf c9Cfg c9Emails))).2 = ["m3"]
    ∧ (newEmailsOf c9Cfg c9Emails).length = 3 := by
  obtain ⟨e, hh, hdel, hmax, hrest⟩ :=
    claim_c9_single_item_mode c7Env c9Cfg c9Emails rfl (by decide) (by decide)
  have hhead : (newEmailsOf c9Cfg c9Emails).head?
      = some ({ id := "m3", internalDate := 3, labelIds := [], historyId := none } : Email) := by
    decide
  have he : e = { id := "m3", internalDate := 3, labelIds := [], historyId := none } :=
    (Option.some.inj (hhead.symm.trans hh)).symm
  refine ⟨?_, by decide⟩
  rw [hdel, he]

/-- Witness for C10: a throwing history request yields a successful
`no_emails` tick that persists the tick timestamp. -/
theorem claim_c10_witness :
    (pollGmailWebhookTick c10Env c10Cfg).status = .noEmails
    ∧ (pollGmailWebhookTick c10Env c10Cfg).persisted.map (fun pc => pc.lastCheckedTimestamp)
        = some (some "2025-01-01T00:00:00Z")
    ∧ (pollGmailWebhookTick c10Env c10Cfg).deliveredAttempts = [] := by
  obtain ⟨hempty, hstatus, ⟨pc, hpc, hts⟩, hdel⟩ :=
    claim_c10_fetch_failure_reported_no_emails c10Env c10Cfg rfl rfl rfl
      (Or.inl ⟨by decide, rfl⟩)
  refine ⟨hstatus, ?_, hdel⟩
  rw [hpc]
  simp [hts, c10Env]
